import Mathlib

/-!
Verification of the FreeRTOS backoffAlgorithm library ("Full Jitter"
exponential backoff with jitter), shallowly embedded from
`source/include/backoff_algorithm.h` and the repository's specification.

The header declares the data types: `maxBackOffDelay` and `nextJitterMax`
are `uint16_t`, `attemptsDone` and `maxRetryAttempts` are `uint32_t`, and
the injected random number generator returns `int32_t` (negative means
failure).  Machine integers are embedded as `Nat` (and `Int` for the RNG
value), with an explicit reduction modulo `2^32` where the `uint32_t`
counter increment can wrap.  The RNG function pointer stored in the C
context is embedded as an external oracle: the single value the one RNG
invocation of a call would produce is passed to the step function as an
explicit argument, and a whole run is driven by a stream `f : Nat → Int`
of per-call oracle values.
-/

/-- Status codes for `BackoffAlgorithm_GetNextBackoff`
(header, `BackoffAlgorithmStatus_t`). -/
inductive BackoffAlgorithmStatus where
  | BackoffAlgorithmSuccess
  | BackoffAlgorithmRngFailure
  | BackoffAlgorithmRetriesExhausted
  deriving Repr, DecidableEq

/-- The sentinel value representing unlimited retry attempts
(header, `BACKOFF_ALGORITHM_RETRY_FOREVER`). -/
def BACKOFF_ALGORITHM_RETRY_FOREVER : Nat := 0

/-- Modulus of the `uint32_t` type of the `attemptsDone` and
`maxRetryAttempts` fields. -/
def UINT32_MOD : Nat := 2 ^ 32

/-- The retry context (header, `struct BackoffAlgorithmContext`).
`maxBackOffDelay` and `nextJitterMax` are `uint16_t` fields,
`attemptsDone` and `maxRetryAttempts` are `uint32_t` fields.  The `pRng`
function-pointer field is not part of the embedded state: the value its
invocation would return is supplied to the step function as an explicit
oracle argument. -/
structure BackoffAlgorithmContext where
  maxBackOffDelay : Nat
  attemptsDone : Nat
  nextJitterMax : Nat
  maxRetryAttempts : Nat
  deriving Repr, DecidableEq

/-- Modelled from the spec: the implementation file `backoff_algorithm.c`
is not under `src/` (only the header is), so the body of
`BackoffAlgorithm_InitializeParams` is taken from the specification:
it sets `attempts_done = 0`, sets the initial window ceiling equal to
`base_delay` clipped to `max_delay` when `base_delay` exceeds it, and
stores the bounds.  The first argument is the prior contents of the
context being (re-)initialized; every field is overwritten. -/
def BackoffAlgorithm_InitializeParams (_pContext : BackoffAlgorithmContext)
    (backOffBase maxBackOff maxAttempts : Nat) : BackoffAlgorithmContext :=
  { maxBackOffDelay := maxBackOff
    attemptsDone := 0
    nextJitterMax := min backOffBase maxBackOff
    maxRetryAttempts := maxAttempts }

/-- Modelled from the spec: the implementation file `backoff_algorithm.c`
is not under `src/`, so the body of `BackoffAlgorithm_GetNextBackoff` is
taken from the specification and the header's documentation.
If `maxRetryAttempts` is not the forever sentinel and `attemptsDone`
equals it, the call returns `RetriesExhausted` without touching the state
or the RNG.  Otherwise the RNG is invoked once (its value is the
`randomVal` argument); a negative value yields `RngFailure` with the
state unchanged.  Otherwise the delay is the raw RNG output reduced
modulo `nextJitterMax + 1` (the inclusive window `[0, nextJitterMax]`),
`attemptsDone` is incremented (a `uint32_t` increment, hence modulo
`2^32`), and the window ceiling for the next attempt doubles, saturated
(clamped, not wrapped) at `maxBackOffDelay`.  The returned triple is
(status, written delay if any, updated context). -/
def BackoffAlgorithm_GetNextBackoff (pRetryContext : BackoffAlgorithmContext)
    (randomVal : Int) :
    BackoffAlgorithmStatus × Option Nat × BackoffAlgorithmContext :=
  if pRetryContext.maxRetryAttempts ≠ BACKOFF_ALGORITHM_RETRY_FOREVER ∧
      pRetryContext.attemptsDone = pRetryContext.maxRetryAttempts then
    (.BackoffAlgorithmRetriesExhausted, none, pRetryContext)
  else if randomVal < 0 then
    (.BackoffAlgorithmRngFailure, none, pRetryContext)
  else
    (.BackoffAlgorithmSuccess,
      some (randomVal.toNat % (pRetryContext.nextJitterMax + 1)),
      { pRetryContext with
        attemptsDone := (pRetryContext.attemptsDone + 1) % UINT32_MOD
        nextJitterMax :=
          min (2 * pRetryContext.nextJitterMax) pRetryContext.maxBackOffDelay })

/-- Whether a call to `BackoffAlgorithm_GetNextBackoff` from context `c`
invokes the injected random source: it does unless the retries-exhausted
precondition check fails first. -/
def invokesRng (c : BackoffAlgorithmContext) : Bool :=
  decide (c.maxRetryAttempts = BACKOFF_ALGORITHM_RETRY_FOREVER ∨
    c.attemptsDone ≠ c.maxRetryAttempts)

/-- State after `n` consecutive calls to `BackoffAlgorithm_GetNextBackoff`
starting from `c`, where the oracle value offered to the `i`-th call
(0-based) is `f i`. -/
def runBackoff (f : Nat → Int) (c : BackoffAlgorithmContext) :
    Nat → BackoffAlgorithmContext
  | 0 => c
  | n + 1 => (BackoffAlgorithm_GetNextBackoff (runBackoff f c n) (f n)).2.2

/-- Status returned by the `(n+1)`-th call (0-based index `n`) in the run
driven by oracle `f` from context `c`. -/
def callStatus (f : Nat → Int) (c : BackoffAlgorithmContext) (n : Nat) :
    BackoffAlgorithmStatus :=
  (BackoffAlgorithm_GetNextBackoff (runBackoff f c n) (f n)).1

/-- Delay written by the `(n+1)`-th call (0-based index `n`) in the run
driven by oracle `f` from context `c`; `none` when the call writes no
delay. -/
def callDelay (f : Nat → Int) (c : BackoffAlgorithmContext) (n : Nat) :
    Option Nat :=
  (BackoffAlgorithm_GetNextBackoff (runBackoff f c n) (f n)).2.1

/- ## Helper lemmas -/

/-- Doubling then clamping a clamped value is clamping the doubled value. -/
lemma min_double_min (x m : Nat) : min (2 * min x m) m = min (2 * x) m := by
  rcases Nat.le_total x m with h | h
  · rw [Nat.min_eq_left h]
  · rw [Nat.min_eq_right h, Nat.min_eq_right (by omega), Nat.min_eq_right (by omega)]

/-- An exhausted context returns `RetriesExhausted` with no delay and an
unchanged state, for every oracle value. -/
lemma getNextBackoff_exhausted (c : BackoffAlgorithmContext)
    (h1 : c.maxRetryAttempts ≠ 0) (h2 : c.attemptsDone = c.maxRetryAttempts)
    (r : Int) :
    BackoffAlgorithm_GetNextBackoff c r =
      (.BackoffAlgorithmRetriesExhausted, none, c) := by
  simp [BackoffAlgorithm_GetNextBackoff, BACKOFF_ALGORITHM_RETRY_FOREVER, h1, h2]

/-- A run from an exhausted context never moves. -/
lemma runBackoff_exhausted (c : BackoffAlgorithmContext)
    (h1 : c.maxRetryAttempts ≠ 0) (h2 : c.attemptsDone = c.maxRetryAttempts)
    (f : Nat → Int) (n : Nat) : runBackoff f c n = c := by
  induction n with
  | zero => rfl
  | succ k ih =>
    show (BackoffAlgorithm_GetNextBackoff (runBackoff f c k) (f k)).2.2 = c
    rw [ih, getNextBackoff_exhausted c h1 h2]

/-- Fields preserved or updated by one step: the two configuration fields
never change, and the window ceiling either stays or becomes the clamped
double. -/
lemma getNextBackoff_fields (c : BackoffAlgorithmContext) (r : Int) :
    ((BackoffAlgorithm_GetNextBackoff c r).2.2).maxBackOffDelay = c.maxBackOffDelay ∧
    ((BackoffAlgorithm_GetNextBackoff c r).2.2).maxRetryAttempts = c.maxRetryAttempts ∧
    (((BackoffAlgorithm_GetNextBackoff c r).2.2).nextJitterMax = c.nextJitterMax ∨
      ((BackoffAlgorithm_GetNextBackoff c r).2.2).nextJitterMax =
        min (2 * c.nextJitterMax) c.maxBackOffDelay) := by
  unfold BackoffAlgorithm_GetNextBackoff
  split
  · exact ⟨rfl, rfl, Or.inl rfl⟩
  · split
    · exact ⟨rfl, rfl, Or.inl rfl⟩
    · exact ⟨rfl, rfl, Or.inr rfl⟩

/-- Along any run, the configuration fields are constant and the window
ceiling stays at most `max c.nextJitterMax c.maxBackOffDelay`. -/
lemma runBackoff_fields (f : Nat → Int) (c : BackoffAlgorithmContext) (n : Nat) :
    (runBackoff f c n).maxBackOffDelay = c.maxBackOffDelay ∧
    (runBackoff f c n).maxRetryAttempts = c.maxRetryAttempts ∧
    (runBackoff f c n).nextJitterMax ≤ max c.nextJitterMax c.maxBackOffDelay := by
  induction n with
  | zero => exact ⟨rfl, rfl, Nat.le_max_left _ _⟩
  | succ k ih =>
    obtain ⟨ih1, ih2, ih3⟩ := ih
    obtain ⟨h1, h2, h3⟩ := getNextBackoff_fields (runBackoff f c k) (f k)
    refine ⟨by rw [show runBackoff f c (k+1) =
        (BackoffAlgorithm_GetNextBackoff (runBackoff f c k) (f k)).2.2 from rfl, h1, ih1],
      by rw [show runBackoff f c (k+1) =
        (BackoffAlgorithm_GetNextBackoff (runBackoff f c k) (f k)).2.2 from rfl, h2, ih2], ?_⟩
    rw [show runBackoff f c (k+1) =
      (BackoffAlgorithm_GetNextBackoff (runBackoff f c k) (f k)).2.2 from rfl]
    rcases h3 with h3 | h3
    · rw [h3]; exact ih3
    · rw [h3, ih1]
      exact le_trans (Nat.min_le_right _ _) (Nat.le_max_right _ _)

/-- One step on an explicit context when the cap check passes and the
oracle value is non-negative: the Success branch in closed form. -/
lemma getNextBackoff_success_eq (m a j K : Nat) (r : Int)
    (hguard : ¬(K ≠ 0 ∧ a = K)) (hr : 0 ≤ r) :
    BackoffAlgorithm_GetNextBackoff ⟨m, a, j, K⟩ r =
      (.BackoffAlgorithmSuccess, some (r.toNat % (j + 1)),
        ⟨m, (a + 1) % UINT32_MOD, min (2 * j) m, K⟩) := by
  simp [BackoffAlgorithm_GetNextBackoff, BACKOFF_ALGORITHM_RETRY_FOREVER,
    hguard, not_lt.mpr hr]

/-- Closed form of a run from a freshly initialized context when the
oracle never fails and the attempt cap is not hit within the run: after
`n` calls, `attemptsDone` is `n` reduced modulo `2^32` and the window
ceiling is `min (2^n * b) m`. -/
lemma runBackoff_init_closed (c0 : BackoffAlgorithmContext) (b m K : Nat)
    (f : Nat → Int) (hbm : b ≤ m) (hf : ∀ i, 0 ≤ f i) (n : Nat)
    (hn : K = 0 ∨ (n ≤ K ∧ K < 2 ^ 32)) :
    runBackoff f (BackoffAlgorithm_InitializeParams c0 b m K) n =
      { maxBackOffDelay := m
        attemptsDone := n % UINT32_MOD
        nextJitterMax := min (2 ^ n * b) m
        maxRetryAttempts := K } := by
  induction n with
  | zero =>
    simp [runBackoff, BackoffAlgorithm_InitializeParams, UINT32_MOD,
      Nat.min_eq_left hbm]
  | succ k ih =>
    have hk : K = 0 ∨ (k ≤ K ∧ K < 2 ^ 32) := by
      rcases hn with h | ⟨h1, h2⟩
      · exact Or.inl h
      · exact Or.inr ⟨Nat.le_of_succ_le h1, h2⟩
    rw [show runBackoff f (BackoffAlgorithm_InitializeParams c0 b m K) (k+1) =
      (BackoffAlgorithm_GetNextBackoff
        (runBackoff f (BackoffAlgorithm_InitializeParams c0 b m K) k) (f k)).2.2
      from rfl, ih hk]
    have hguard : ¬(K ≠ 0 ∧ k % UINT32_MOD = K) := by
      rcases hn with h | ⟨h1, h2⟩
      · simp [h]
      · have hkK : k < K := Nat.lt_of_succ_le h1
        have : k % UINT32_MOD = k :=
          Nat.mod_eq_of_lt (lt_trans hkK (by simpa [UINT32_MOD] using h2))
        rintro ⟨_, hc⟩
        rw [this] at hc
        omega
    rw [getNextBackoff_success_eq m (k % UINT32_MOD) (min (2 ^ k * b) m) K
      (f k) hguard (hf k)]
    have h1 : (k % UINT32_MOD + 1) % UINT32_MOD = (k + 1) % UINT32_MOD :=
      Nat.mod_add_mod k UINT32_MOD 1
    have h2 : min (2 * min (2 ^ k * b) m) m = min (2 ^ (k + 1) * b) m := by
      rw [min_double_min, pow_succ]
      ring_nf
    simp [h1, h2]

/-- Characterisation of a Success return: the oracle value was
non-negative, the written delay is the raw value reduced modulo
`nextJitterMax + 1`, and the state update is the counter increment plus
the clamped doubling of the window ceiling. -/
lemma getNextBackoff_success_char (c : BackoffAlgorithmContext) (r : Int)
    (hs : (BackoffAlgorithm_GetNextBackoff c r).1 = .BackoffAlgorithmSuccess) :
    0 ≤ r ∧ BackoffAlgorithm_GetNextBackoff c r =
      (.BackoffAlgorithmSuccess, some (r.toNat % (c.nextJitterMax + 1)),
        { c with
          attemptsDone := (c.attemptsDone + 1) % UINT32_MOD
          nextJitterMax := min (2 * c.nextJitterMax) c.maxBackOffDelay }) := by
  by_cases h1 : c.maxRetryAttempts ≠ BACKOFF_ALGORITHM_RETRY_FOREVER ∧
      c.attemptsDone = c.maxRetryAttempts
  · simp [BackoffAlgorithm_GetNextBackoff, h1] at hs
  · by_cases h2 : r < 0
    · simp [BackoffAlgorithm_GetNextBackoff, h1, h2] at hs
    · exact ⟨not_lt.mp h2, by simp [BackoffAlgorithm_GetNextBackoff, h1, h2]⟩

/-- A run that has reached a fixed point of the step function stays there. -/
lemma runBackoff_add_fixed (f : Nat → Int) (c : BackoffAlgorithmContext) (a : Nat)
    (hfix : ∀ r, (BackoffAlgorithm_GetNextBackoff (runBackoff f c a) r).2.2 =
      runBackoff f c a) (j : Nat) :
    runBackoff f c (a + j) = runBackoff f c a := by
  induction j with
  | zero => rfl
  | succ k ih =>
    show (BackoffAlgorithm_GetNextBackoff (runBackoff f c (a + k)) (f (a + k))).2.2 = _
    rw [ih, hfix]

/- ## Claims -/

/-- C4: whenever the injected random source returns a negative value on a
non-exhausted context, the call returns `RngFailure`, writes no delay, and
leaves the state unchanged; a subsequent call behaves exactly as if the
failed call had never happened. -/
theorem C4_rng_failure_frame (c : BackoffAlgorithmContext) (r : Int)
    (hr : r < 0) (hg : invokesRng c = true) :
    BackoffAlgorithm_GetNextBackoff c r = (.BackoffAlgorithmRngFailure, none, c) ∧
    ∀ r2, BackoffAlgorithm_GetNextBackoff
        ((BackoffAlgorithm_GetNextBackoff c r).2.2) r2 =
      BackoffAlgorithm_GetNextBackoff c r2 := by
  have hg2 : c.maxRetryAttempts = 0 ∨ c.attemptsDone ≠ c.maxRetryAttempts := by
    simpa [invokesRng, BACKOFF_ALGORITHM_RETRY_FOREVER] using hg
  have hguard : ¬(c.maxRetryAttempts ≠ BACKOFF_ALGORITHM_RETRY_FOREVER ∧
      c.attemptsDone = c.maxRetryAttempts) := by
    simp only [BACKOFF_ALGORITHM_RETRY_FOREVER]
    tauto
  have h1 : BackoffAlgorithm_GetNextBackoff c r =
      (.BackoffAlgorithmRngFailure, none, c) := by
    simp [BackoffAlgorithm_GetNextBackoff, hguard, hr]
  exact ⟨h1, fun r2 => by rw [h1]⟩

/-- C4 witness at a concrete input. -/
theorem C4_rng_failure_frame_witness :
    BackoffAlgorithm_GetNextBackoff ⟨10, 1, 5, 4⟩ (-3) =
        (.BackoffAlgorithmRngFailure, none, ⟨10, 1, 5, 4⟩) ∧
      BackoffAlgorithm_GetNextBackoff
          ((BackoffAlgorithm_GetNextBackoff ⟨10, 1, 5, 4⟩ (-3)).2.2) 8 =
        BackoffAlgorithm_GetNextBackoff ⟨10, 1, 5, 4⟩ 8 :=
  ⟨(C4_rng_failure_frame ⟨10, 1, 5, 4⟩ (-3) (by decide) (by decide)).1,
   (C4_rng_failure_frame ⟨10, 1, 5, 4⟩ (-3) (by decide) (by decide)).2 8⟩

/-- C5: initialization sets `attemptsDone` to 0, sets the initial window
ceiling to `backOffBase` clipped to `maxBackOff`, stores the bounds, and
re-initializing an advanced sequence yields exactly the state of
initializing a fresh one. -/
theorem C5_initialize_resets (c0 c2 : BackoffAlgorithmContext)
    (f : Nat → Int) (n b m K : Nat) :
    (BackoffAlgorithm_InitializeParams (runBackoff f c0 n) b m K).attemptsDone = 0 ∧
    (BackoffAlgorithm_InitializeParams (runBackoff f c0 n) b m K).nextJitterMax =
      min b m ∧
    (BackoffAlgorithm_InitializeParams (runBackoff f c0 n) b m K).maxBackOffDelay = m ∧
    (BackoffAlgorithm_InitializeParams (runBackoff f c0 n) b m K).maxRetryAttempts = K ∧
    BackoffAlgorithm_InitializeParams (runBackoff f c0 n) b m K =
      BackoffAlgorithm_InitializeParams c2 b m K :=
  ⟨rfl, rfl, rfl, rfl, rfl⟩

/-- C6: a context whose finite attempt cap has been reached returns
`RetriesExhausted` with no delay and an unchanged state, does not invoke
the random source, and every longer run from it stays put. -/
theorem C6_exhausted_terminal (c : BackoffAlgorithmContext)
    (hK : c.maxRetryAttempts ≠ 0) (hd : c.attemptsDone = c.maxRetryAttempts) :
    (∀ r, BackoffAlgorithm_GetNextBackoff c r =
      (.BackoffAlgorithmRetriesExhausted, none, c)) ∧
    invokesRng c = false ∧
    ∀ f n, runBackoff f c n = c := by
  refine ⟨getNextBackoff_exhausted c hK hd, ?_, runBackoff_exhausted c hK hd⟩
  simp [invokesRng, BACKOFF_ALGORITHM_RETRY_FOREVER, hK, hd]

/-- C6 witness at a concrete input. -/
theorem C6_exhausted_terminal_witness :
    BackoffAlgorithm_GetNextBackoff ⟨10, 3, 5, 3⟩ 7 =
        (.BackoffAlgorithmRetriesExhausted, none, ⟨10, 3, 5, 3⟩) ∧
      invokesRng ⟨10, 3, 5, 3⟩ = false ∧
      runBackoff (fun _ => 7) ⟨10, 3, 5, 3⟩ 4 = ⟨10, 3, 5, 3⟩ :=
  ⟨(C6_exhausted_terminal ⟨10, 3, 5, 3⟩ (by decide) (by decide)).1 7,
   (C6_exhausted_terminal ⟨10, 3, 5, 3⟩ (by decide) (by decide)).2.1,
   (C6_exhausted_terminal ⟨10, 3, 5, 3⟩ (by decide) (by decide)).2.2 (fun _ => 7) 4⟩

/-- C7: a sequence initialized with the forever sentinel never returns
`RetriesExhausted`, for every call count and every oracle behaviour. -/
theorem C7_retry_forever (c0 : BackoffAlgorithmContext) (b m : Nat)
    (f : Nat → Int) (n : Nat) :
    callStatus f
        (BackoffAlgorithm_InitializeParams c0 b m BACKOFF_ALGORITHM_RETRY_FOREVER) n ≠
      .BackoffAlgorithmRetriesExhausted := by
  have h0 : (runBackoff f
      (BackoffAlgorithm_InitializeParams c0 b m 0) n).maxRetryAttempts = 0 :=
    (runBackoff_fields f _ n).2.1
  unfold callStatus BackoffAlgorithm_GetNextBackoff
  rw [if_neg (by simp [BACKOFF_ALGORITHM_RETRY_FOREVER, h0])]
  split <;> simp

/-- C1: for a validly initialized sequence (0 < b ≤ m) and any attempt
index n whose call is not blocked by the cap, the pre-jitter window
ceiling used by the (n+1)-th successful call equals `min (2^n * b) m`,
the call indeed succeeds, the ceiling is non-decreasing in n, and it is
clamped at m once `2^n * b` reaches m. -/
theorem C1_window_ceiling (c0 : BackoffAlgorithmContext) (b m K n : Nat)
    (f : Nat → Int) (hb : 0 < b) (hbm : b ≤ m) (hf : ∀ i, 0 ≤ f i)
    (hK : K = 0 ∨ (n < K ∧ K < 2 ^ 32)) :
    (runBackoff f (BackoffAlgorithm_InitializeParams c0 b m K) n).nextJitterMax =
      min (2 ^ n * b) m ∧
    callStatus f (BackoffAlgorithm_InitializeParams c0 b m K) n =
      .BackoffAlgorithmSuccess ∧
    min (2 ^ n * b) m ≤ min (2 ^ (n + 1) * b) m ∧
    (m ≤ 2 ^ n * b →
      (runBackoff f (BackoffAlgorithm_InitializeParams c0 b m K) n).nextJitterMax = m) := by
  have hn : K = 0 ∨ (n ≤ K ∧ K < 2 ^ 32) := by
    rcases hK with h | ⟨h1, h2⟩
    · exact Or.inl h
    · exact Or.inr ⟨Nat.le_of_lt h1, h2⟩
  have hclosed := runBackoff_init_closed c0 b m K f hbm hf n hn
  have hguard : ¬(K ≠ 0 ∧ n % UINT32_MOD = K) := by
    rcases hK with h | ⟨h1, h2⟩
    · simp [h]
    · have hnM : n % UINT32_MOD = n :=
        Nat.mod_eq_of_lt (lt_trans h1 (by simpa [UINT32_MOD] using h2))
      rintro ⟨_, hc⟩
      rw [hnM] at hc
      omega
  refine ⟨by rw [hclosed], ?_, ?_, fun h => by rw [hclosed]; exact Nat.min_eq_right h⟩
  · unfold callStatus
    rw [hclosed, getNextBackoff_success_eq m (n % UINT32_MOD) (min (2 ^ n * b) m) K
      (f n) hguard (hf n)]
  · exact min_le_min
      (mul_le_mul_right' (Nat.pow_le_pow_right (by norm_num) (Nat.le_succ n)) b) le_rfl

/-- C1 witness at the spec's saturation scenario (b = 1000, m = 3000,
forever cap, third call). -/
theorem C1_window_ceiling_witness :
    (runBackoff (fun _ => 5)
        (BackoffAlgorithm_InitializeParams ⟨0, 0, 0, 0⟩ 1000 3000 0) 2).nextJitterMax =
      min (2 ^ 2 * 1000) 3000 ∧
    callStatus (fun _ => 5)
        (BackoffAlgorithm_InitializeParams ⟨0, 0, 0, 0⟩ 1000 3000 0) 2 =
      .BackoffAlgorithmSuccess ∧
    min (2 ^ 2 * 1000) 3000 ≤ min (2 ^ (2 + 1) * 1000) 3000 ∧
    (3000 ≤ 2 ^ 2 * 1000 →
      (runBackoff (fun _ => 5)
        (BackoffAlgorithm_InitializeParams ⟨0, 0, 0, 0⟩ 1000 3000 0) 2).nextJitterMax =
      3000) :=
  C1_window_ceiling ⟨0, 0, 0, 0⟩ 1000 3000 0 2 (fun _ => 5) (by decide) (by decide)
    (fun _ => (by decide : (0 : Int) ≤ 5)) (Or.inl rfl)

/-- C2: every Success return carries the raw non-negative oracle output
reduced modulo the current window ceiling plus one, hence a delay in
[0, ceiling] and at most m. -/
theorem C2_delay_range (c0 : BackoffAlgorithmContext) (b m K n : Nat)
    (f : Nat → Int) (r : Int) (hbm : b ≤ m)
    (hs : (BackoffAlgorithm_GetNextBackoff
        (runBackoff f (BackoffAlgorithm_InitializeParams c0 b m K) n) r).1 =
      .BackoffAlgorithmSuccess) :
    0 ≤ r ∧
    (BackoffAlgorithm_GetNextBackoff
        (runBackoff f (BackoffAlgorithm_InitializeParams c0 b m K) n) r).2.1 =
      some (r.toNat %
        ((runBackoff f (BackoffAlgorithm_InitializeParams c0 b m K) n).nextJitterMax + 1)) ∧
    r.toNat %
        ((runBackoff f (BackoffAlgorithm_InitializeParams c0 b m K) n).nextJitterMax + 1) ≤
      (runBackoff f (BackoffAlgorithm_InitializeParams c0 b m K) n).nextJitterMax ∧
    r.toNat %
        ((runBackoff f (BackoffAlgorithm_InitializeParams c0 b m K) n).nextJitterMax + 1) ≤
      m := by
  obtain ⟨hr, heq⟩ := getNextBackoff_success_char _ _ hs
  have hj : (runBackoff f (BackoffAlgorithm_InitializeParams c0 b m K) n).nextJitterMax ≤ m := by
    have h := (runBackoff_fields f (BackoffAlgorithm_InitializeParams c0 b m K) n).2.2
    simpa [BackoffAlgorithm_InitializeParams,
      Nat.max_eq_right (Nat.min_le_right b m)] using h
  have hmod : r.toNat %
      ((runBackoff f (BackoffAlgorithm_InitializeParams c0 b m K) n).nextJitterMax + 1) ≤
      (runBackoff f (BackoffAlgorithm_InitializeParams c0 b m K) n).nextJitterMax :=
    Nat.lt_succ_iff.mp (Nat.mod_lt _ (Nat.succ_pos _))
  exact ⟨hr, by rw [heq], hmod, le_trans hmod hj⟩

/-- C2 witness at a concrete input. -/
theorem C2_delay_range_witness :
    0 ≤ (9 : Int) ∧
    (BackoffAlgorithm_GetNextBackoff
        (runBackoff (fun _ => 1) (BackoffAlgorithm_InitializeParams ⟨0, 0, 0, 0⟩ 2 5 0) 0) 9).2.1 =
      some ((9 : Int).toNat %
        ((runBackoff (fun _ => 1)
          (BackoffAlgorithm_InitializeParams ⟨0, 0, 0, 0⟩ 2 5 0) 0).nextJitterMax + 1)) ∧
    (9 : Int).toNat %
        ((runBackoff (fun _ => 1)
          (BackoffAlgorithm_InitializeParams ⟨0, 0, 0, 0⟩ 2 5 0) 0).nextJitterMax + 1) ≤
      (runBackoff (fun _ => 1)
        (BackoffAlgorithm_InitializeParams ⟨0, 0, 0, 0⟩ 2 5 0) 0).nextJitterMax ∧
    (9 : Int).toNat %
        ((runBackoff (fun _ => 1)
          (BackoffAlgorithm_InitializeParams ⟨0, 0, 0, 0⟩ 2 5 0) 0).nextJitterMax + 1) ≤
      5 :=
  C2_delay_range ⟨0, 0, 0, 0⟩ 2 5 0 0 (fun _ => 1) 9 (by decide) (by decide)

/-- C3: with a finite non-zero cap K and an always-succeeding oracle, the
first K calls return Success, every later call returns RetriesExhausted,
and `attemptsDone` is frozen at K. -/
theorem C3_finite_cap (c0 : BackoffAlgorithmContext) (b m K : Nat) (f : Nat → Int)
    (hbm : b ≤ m) (hK0 : 0 < K) (hK : K < 2 ^ 32) (hf : ∀ i, 0 ≤ f i) :
    (∀ i, i < K → callStatus f (BackoffAlgorithm_InitializeParams c0 b m K) i =
      .BackoffAlgorithmSuccess) ∧
    (∀ i, K ≤ i → callStatus f (BackoffAlgorithm_InitializeParams c0 b m K) i =
        .BackoffAlgorithmRetriesExhausted ∧
      (runBackoff f (BackoffAlgorithm_InitializeParams c0 b m K) i).attemptsDone = K) := by
  have hKM : K % UINT32_MOD = K := Nat.mod_eq_of_lt (by simpa [UINT32_MOD] using hK)
  constructor
  · intro i hi
    have hclosed := runBackoff_init_closed c0 b m K f hbm hf i
      (Or.inr ⟨Nat.le_of_lt hi, hK⟩)
    have hiM : i % UINT32_MOD = i :=
      Nat.mod_eq_of_lt (lt_trans hi (by simpa [UINT32_MOD] using hK))
    have hguard : ¬(K ≠ 0 ∧ i % UINT32_MOD = K) := by
      rintro ⟨_, hc⟩
      rw [hiM] at hc
      omega
    unfold callStatus
    rw [hclosed, getNextBackoff_success_eq m (i % UINT32_MOD) (min (2 ^ i * b) m) K
      (f i) hguard (hf i)]
  · have hclosedK := runBackoff_init_closed c0 b m K f hbm hf K (Or.inr ⟨le_rfl, hK⟩)
    have hx1 : (⟨m, K % UINT32_MOD, min (2 ^ K * b) m, K⟩ :
        BackoffAlgorithmContext).maxRetryAttempts ≠ 0 := by
      show K ≠ 0
      omega
    have hx2 : (⟨m, K % UINT32_MOD, min (2 ^ K * b) m, K⟩ :
        BackoffAlgorithmContext).attemptsDone =
        (⟨m, K % UINT32_MOD, min (2 ^ K * b) m, K⟩ :
        BackoffAlgorithmContext).maxRetryAttempts := by
      show K % UINT32_MOD = K
      exact hKM
    have hstable : ∀ j,
        runBackoff f (BackoffAlgorithm_InitializeParams c0 b m K) (K + j) =
        runBackoff f (BackoffAlgorithm_InitializeParams c0 b m K) K :=
      runBackoff_add_fixed f (BackoffAlgorithm_InitializeParams c0 b m K) K
        (fun r => by rw [hclosedK, getNextBackoff_exhausted _ hx1 hx2])
    intro i hi
    obtain ⟨j, rfl⟩ : ∃ j, i = K + j := ⟨i - K, by omega⟩
    have hrun : runBackoff f (BackoffAlgorithm_InitializeParams c0 b m K) (K + j) =
        ⟨m, K % UINT32_MOD, min (2 ^ K * b) m, K⟩ := (hstable j).trans hclosedK
    constructor
    · unfold callStatus
      rw [hrun, getNextBackoff_exhausted _ hx1 hx2]
    · rw [hrun]
      exact hKM

/-- C3 witness at a concrete input (K = 2). -/
theorem C3_finite_cap_witness :
    callStatus (fun _ => 3) (BackoffAlgorithm_InitializeParams ⟨0, 0, 0, 0⟩ 1 2 2) 1 =
        .BackoffAlgorithmSuccess ∧
      callStatus (fun _ => 3) (BackoffAlgorithm_InitializeParams ⟨0, 0, 0, 0⟩ 1 2 2) 3 =
        .BackoffAlgorithmRetriesExhausted ∧
      (runBackoff (fun _ => 3)
        (BackoffAlgorithm_InitializeParams ⟨0, 0, 0, 0⟩ 1 2 2) 3).attemptsDone = 2 :=
  ⟨(C3_finite_cap ⟨0, 0, 0, 0⟩ 1 2 2 (fun _ => 3) (by decide) (by decide) (by decide)
      (fun _ => (by decide : (0 : Int) ≤ 3))).1 1 (by decide),
   ((C3_finite_cap ⟨0, 0, 0, 0⟩ 1 2 2 (fun _ => 3) (by decide) (by decide) (by decide)
      (fun _ => (by decide : (0 : Int) ≤ 3))).2 3 (by decide)).1,
   ((C3_finite_cap ⟨0, 0, 0, 0⟩ 1 2 2 (fun _ => 3) (by decide) (by decide) (by decide)
      (fun _ => (by decide : (0 : Int) ≤ 3))).2 3 (by decide)).2⟩

/-- C8: initialization accepts the degenerate all-zero configuration
without validation, the modulus used for the jitter reduction is always
positive, and with the zero configuration every Success call returns
delay 0. -/
theorem C8_total_degenerate (c0 : BackoffAlgorithmContext) (K n : Nat)
    (f : Nat → Int) (r : Int)
    (hs : (BackoffAlgorithm_GetNextBackoff
        (runBackoff f (BackoffAlgorithm_InitializeParams c0 0 0 K) n) r).1 =
      .BackoffAlgorithmSuccess) :
    BackoffAlgorithm_InitializeParams c0 0 0 K =
      { maxBackOffDelay := 0, attemptsDone := 0, nextJitterMax := 0,
        maxRetryAttempts := K } ∧
    0 < (runBackoff f (BackoffAlgorithm_InitializeParams c0 0 0 K) n).nextJitterMax + 1 ∧
    (BackoffAlgorithm_GetNextBackoff
        (runBackoff f (BackoffAlgorithm_InitializeParams c0 0 0 K) n) r).2.1 =
      some 0 := by
  have hj : (runBackoff f (BackoffAlgorithm_InitializeParams c0 0 0 K) n).nextJitterMax = 0 := by
    have h := (runBackoff_fields f (BackoffAlgorithm_InitializeParams c0 0 0 K) n).2.2
    simpa [BackoffAlgorithm_InitializeParams] using h
  obtain ⟨hr, heq⟩ := getNextBackoff_success_char _ _ hs
  refine ⟨rfl, Nat.succ_pos _, ?_⟩
  rw [heq, hj]
  simp [Nat.mod_one]

/-- C8 witness at a concrete input. -/
theorem C8_total_degenerate_witness :
    BackoffAlgorithm_InitializeParams ⟨0, 0, 0, 0⟩ 0 0 0 =
      { maxBackOffDelay := 0, attemptsDone := 0, nextJitterMax := 0,
        maxRetryAttempts := 0 } ∧
    0 < (runBackoff (fun _ => 5)
      (BackoffAlgorithm_InitializeParams ⟨0, 0, 0, 0⟩ 0 0 0) 0).nextJitterMax + 1 ∧
    (BackoffAlgorithm_GetNextBackoff
        (runBackoff (fun _ => 5)
          (BackoffAlgorithm_InitializeParams ⟨0, 0, 0, 0⟩ 0 0 0) 0) 7).2.1 =
      some 0 :=
  C8_total_degenerate ⟨0, 0, 0, 0⟩ 0 0 (fun _ => 5) 7 (by decide)

/-- C9: `attemptsDone` is a `uint32_t` counter: under the forever
sentinel and a never-failing oracle it equals the call count reduced
modulo `2^32`, so after `2^32` successful calls it is back at 0. -/
theorem C9_counter_wraps (c0 : BackoffAlgorithmContext) (b m n : Nat)
    (f : Nat → Int) (hbm : b ≤ m) (hf : ∀ i, 0 ≤ f i) :
    (runBackoff f (BackoffAlgorithm_InitializeParams c0 b m
        BACKOFF_ALGORITHM_RETRY_FOREVER) n).attemptsDone = n % 2 ^ 32 ∧
    (runBackoff f (BackoffAlgorithm_InitializeParams c0 b m
        BACKOFF_ALGORITHM_RETRY_FOREVER) (2 ^ 32)).attemptsDone = 0 := by
  have h1 := runBackoff_init_closed c0 b m 0 f hbm hf n (Or.inl rfl)
  have h2 := runBackoff_init_closed c0 b m 0 f hbm hf (2 ^ 32) (Or.inl rfl)
  constructor
  · show (runBackoff f (BackoffAlgorithm_InitializeParams c0 b m 0) n).attemptsDone =
      n % 2 ^ 32
    rw [h1]
    show n % UINT32_MOD = n % 2 ^ 32
    simp [UINT32_MOD]
  · show (runBackoff f (BackoffAlgorithm_InitializeParams c0 b m 0) (2 ^ 32)).attemptsDone = 0
    rw [h2]
    show 2 ^ 32 % UINT32_MOD = 0
    simp [UINT32_MOD]

/-- C9 witness at a concrete input. -/
theorem C9_counter_wraps_witness :
    (runBackoff (fun _ => 0) (BackoffAlgorithm_InitializeParams ⟨0, 0, 0, 0⟩ 1 1
        BACKOFF_ALGORITHM_RETRY_FOREVER) 5).attemptsDone = 5 % 2 ^ 32 ∧
    (runBackoff (fun _ => 0) (BackoffAlgorithm_InitializeParams ⟨0, 0, 0, 0⟩ 1 1
        BACKOFF_ALGORITHM_RETRY_FOREVER) (2 ^ 32)).attemptsDone = 0 :=
  C9_counter_wraps ⟨0, 0, 0, 0⟩ 1 1 5 (fun _ => 0) (by decide)
    (fun _ => (by decide : (0 : Int) ≤ 0))

/-- C10: the step function is deterministic — equal contexts and equal
oracle values yield equal status, delay and resulting state. -/
theorem C10_deterministic (c1 c2 : BackoffAlgorithmContext) (r1 r2 : Int)
    (hc : c1 = c2) (hr : r1 = r2) :
    BackoffAlgorithm_GetNextBackoff c1 r1 = BackoffAlgorithm_GetNextBackoff c2 r2 := by
  rw [hc, hr]

/-- C10 witness at a concrete input. -/
theorem C10_deterministic_witness :
    BackoffAlgorithm_GetNextBackoff ⟨5, 0, 2, 3⟩ 9 =
      BackoffAlgorithm_GetNextBackoff ⟨5, 0, 2, 3⟩ 9 :=
  C10_deterministic ⟨5, 0, 2, 3⟩ ⟨5, 0, 2, 3⟩ 9 9 rfl rfl
